import Mathlib

/-!
Verification of the perplexity MCP server against its specification.

The Go source is shallowly embedded: pure request-building and formatting
functions become Lean functions; the filesystem-backed cache becomes explicit
state passing over a directory-listing model; the crypto random source becomes
an abstract stream of values below the charset size; fallible operations
return `Except`.  Go `float64` configuration values (temperature, top-p, ...)
are only ever copied, never computed with, so they are modelled as `Rat`;
Go `int` is modelled as `Int`.  A Go `map[string]interface{}` argument bag is
modelled as a structure of `Option`-typed fields: `none` covers both an absent
key and a value of the wrong dynamic type (both make the Go type assertion
fail), and `some v` a present, well-typed value.
-/

namespace Perplexity

/-! ## Data model (pkg/types/types.go) -/

/-- Model constants from pkg/types/types.go. -/
def ModelSonar : String := "sonar"

/-- Model constant "sonar-pro" from pkg/types/types.go. -/
def ModelSonarPro : String := "sonar-pro"

/-- Default model from pkg/types/types.go: `DefaultModel = ModelSonar`. -/
def DefaultModel : String := ModelSonar

/-- Default max tokens from pkg/types/types.go. -/
def DefaultMaxTokens : Int := 1024

/-- Chat message (pkg/types/types.go `Message`). -/
structure Message where
  role : String
  content : String
deriving Repr, DecidableEq

/-- Wire-level request body (pkg/types/types.go `PerplexityRequest`).
Fields not set explicitly by the Go code hold Go zero values. -/
structure PerplexityRequest where
  model : String
  messages : List Message
  maxTokens : Int
  temperature : Rat
  topP : Rat
  topK : Int
  stream : Bool
  searchDomainFilter : List String
  searchExcludeDomains : List String
  returnImages : Bool
  returnRelatedQuestions : Bool
  searchRecencyFilter : String
  returnCitations : Bool
  citationQuality : String
  searchMode : String
  dateRangeStart : String
  dateRangeEnd : String
  location : String
  searchContextSize : Int
deriving Repr, DecidableEq

/-- One detailed source record (pkg/types/types.go `SearchResult`). -/
structure SearchResult where
  url : String
  title : String
  snippet : String
deriving Repr, DecidableEq

/-- One choice of the API reply (pkg/types/types.go `Choice`). -/
structure Choice where
  index : Int
  finishReason : String
  message : Message
deriving Repr, DecidableEq

/-- API reply (pkg/types/types.go `PerplexityResponse`); only the fields the
formatter reads are kept (id/usage metadata is never consulted). -/
structure PerplexityResponse where
  choices : List Choice
  citations : List String
  searchResults : List SearchResult
  relatedQuestions : List String
deriving Repr, DecidableEq

/-- Server configuration (pkg/config `Config`), including the cache root
field `ResultsRootFolder` read by pkg/search and pkg/perplexity. -/
structure Config where
  apiKey : String
  defaultModel : String
  maxTokens : Int
  temperature : Rat
  topP : Rat
  topK : Int
  returnCitations : Bool
  returnImages : Bool
  returnRelated : Bool
  resultsRootFolder : String
deriving Repr

/-! ## Typed search parameters (pkg/search/types.go) -/

/-- Strongly-typed search parameters (pkg/search/types.go `SearchParams`).
`CustomFilters` is a Go map iterated in unspecified order; it is modelled as
an association list whose values are already in their printed (`%v`) form. -/
structure SearchParams where
  query : String
  searchType : String
  model : String
  searchDomainFilter : List String
  searchExcludeDomains : List String
  searchRecencyFilter : String
  returnImages : Option Bool
  returnRelatedQuestions : Option Bool
  maxTokens : Option Int
  temperature : Option Rat
  dateRangeStart : String
  dateRangeEnd : String
  location : String
  subjectArea : String
  ticker : String
  companyName : String
  reportType : String
  contentType : String
  fileType : String
  language : String
  country : String
  customFilters : Option (List (String × String))
deriving Repr

/-- A `SearchParams` value with every field at its Go zero value. -/
def SearchParams.empty : SearchParams where
  query := ""
  searchType := ""
  model := ""
  searchDomainFilter := []
  searchExcludeDomains := []
  searchRecencyFilter := ""
  returnImages := none
  returnRelatedQuestions := none
  maxTokens := none
  temperature := none
  dateRangeStart := ""
  dateRangeEnd := ""
  location := ""
  subjectArea := ""
  ticker := ""
  companyName := ""
  reportType := ""
  contentType := ""
  fileType := ""
  language := ""
  country := ""
  customFilters := none

/-! ## Typed search orchestrator (pkg/search/search.go) -/

/-- Join strings with ", " separators, as the Go loops building
`contextStr` / `customContext` do (`if i > 0 { s += ", " }; s += part`). -/
def joinComma : List String → String
  | [] => ""
  | [x] => x
  | x :: y :: rest => x ++ ", " ++ joinComma (y :: rest)

/-- `Searcher.buildRequest` (pkg/search/search.go:225-285): construct the wire
request from typed parameters.  The Go code builds a literal and then
conditionally overrides individual fields; since every field is assigned at
most once after construction, the sequence of overrides is written here as a
record of each field's final value, keeping each override's guard.
`ReturnCitations` is set to `true` at construction and no override exists for
it (`SearchParams` has no such field). -/
def Searcher.buildRequest (cfg : Config) (params : SearchParams)
    (defaultModel : String) : PerplexityRequest where
  model := if params.model ≠ "" then params.model else defaultModel
  messages := [{ role := "user", content := params.query }]
  maxTokens := match params.maxTokens with
    | some n => n
    | none => cfg.maxTokens
  temperature := match params.temperature with
    | some t => t
    | none => cfg.temperature
  topP := 0
  topK := 0
  stream := false
  searchDomainFilter := if params.searchDomainFilter.length > 0 then
    params.searchDomainFilter else []
  searchExcludeDomains := if params.searchExcludeDomains.length > 0 then
    params.searchExcludeDomains else []
  returnImages := match params.returnImages with
    | some b => b
    | none => false
  returnRelatedQuestions := match params.returnRelatedQuestions with
    | some b => b
    | none => false
  searchRecencyFilter := if params.searchRecencyFilter ≠ "" then
    params.searchRecencyFilter else ""
  returnCitations := true
  citationQuality := ""
  searchMode := ""
  dateRangeStart := if params.dateRangeStart ≠ "" then params.dateRangeStart else ""
  dateRangeEnd := if params.dateRangeEnd ≠ "" then params.dateRangeEnd else ""
  location := if params.location ≠ "" then params.location else ""
  searchContextSize := 0

/-- Request-construction portion of `Searcher.Search`
(pkg/search/search.go:30-49): build with the configured default model, then
apply the config fallbacks for images / related questions.  The subsequent
`callAPI` sends exactly this value. -/
def Searcher.searchRequest (cfg : Config) (params : SearchParams) : PerplexityRequest :=
  let req := Searcher.buildRequest cfg params cfg.defaultModel
  { req with
    returnImages := if params.returnImages = none then cfg.returnImages else req.returnImages
    returnRelatedQuestions := if params.returnRelatedQuestions = none then
      cfg.returnRelated else req.returnRelatedQuestions }

/-- Request-construction portion of `Searcher.AcademicSearch`
(pkg/search/search.go:52-77): default the model to sonar-pro, set academic
mode and a context size of 10, and prefix the subject area when present. -/
def Searcher.academicSearchRequest (cfg : Config) (params : SearchParams) :
    PerplexityRequest :=
  let params := if params.model = "" then { params with model := ModelSonarPro } else params
  let req := Searcher.buildRequest cfg params cfg.defaultModel
  { req with
    searchMode := "academic"
    searchContextSize := 10
    messages := if params.subjectArea ≠ "" then
      [{ role := "user",
         content := "[Subject: " ++ params.subjectArea ++ "] " ++ params.query }]
      else req.messages }

/-- Request-construction portion of `Searcher.FinancialSearch`
(pkg/search/search.go:80-119): default the model to sonar-pro, then prepend
the bracketed ticker / company / report-type context to the query. -/
def Searcher.financialSearchRequest (cfg : Config) (params : SearchParams) :
    PerplexityRequest :=
  let params := if params.model = "" then { params with model := ModelSonarPro } else params
  let req := Searcher.buildRequest cfg params cfg.defaultModel
  let contextAdditions :=
    (if params.ticker ≠ "" then ["Ticker: " ++ params.ticker] else []) ++
    (if params.companyName ≠ "" then ["Company: " ++ params.companyName] else []) ++
    (if params.reportType ≠ "" then ["Report Type: " ++ params.reportType] else [])
  { req with
    messages := if contextAdditions.length > 0 then
      [{ role := "user",
         content := "[" ++ joinComma contextAdditions ++ "] " ++ params.query }]
      else req.messages }

/-- Request-construction portion of `Searcher.FilteredSearch`
(pkg/search/search.go:123-183): default the model to sonar-pro, fold the
structured filters into a bracketed query prefix (country also populating the
location field when unset), then prepend the custom-filter context.  The Go
code rewrites `req.Messages[0].Content` in two steps (filters prefix over the
query, then the custom-filters prefix over the current content); the single
user message's final content is computed here in those same two steps. -/
def Searcher.filteredSearchRequest (cfg : Config) (params : SearchParams) :
    PerplexityRequest :=
  let params := if params.model = "" then { params with model := ModelSonarPro } else params
  let req := Searcher.buildRequest cfg params cfg.defaultModel
  let filterContext :=
    (if params.contentType ≠ "" then ["Content Type: " ++ params.contentType] else []) ++
    (if params.fileType ≠ "" then ["File Type: " ++ params.fileType] else []) ++
    (if params.language ≠ "" then ["Language: " ++ params.language] else []) ++
    (if params.country ≠ "" then ["Country: " ++ params.country] else [])
  let contentAfterFilters := if filterContext.length > 0 then
    "[Filters: " ++ joinComma filterContext ++ "] " ++ params.query else params.query
  let finalContent := match params.customFilters with
    | some cf =>
      let customContext := joinComma (cf.map (fun p => p.1 ++ ": " ++ p.2))
      if customContext ≠ "" then
        "[Custom Filters: " ++ customContext ++ "] " ++ contentAfterFilters
      else contentAfterFilters
    | none => contentAfterFilters
  { req with
    location := if params.country ≠ "" ∧ req.location = "" then params.country else req.location
    messages := [{ role := "user", content := finalContent }] }

/-! ## Map-based client path (pkg/perplexity/client.go and its search ops)

A Go `map[string]interface{}` argument bag, as read through type assertions,
is modelled as a structure of `Option` fields.  Numeric JSON values arrive as
`float64`; Go truncates them with `int(x)` where an int is needed. -/

/-- Truncating conversion `int(float64)` on a rational model of the value. -/
def goInt (q : Rat) : Int := q.num / (q.den : Int)

/-- Dynamic argument bag for the map-based client operations. -/
structure MapParams where
  query : Option String
  model : Option String
  searchDomainFilter : Option (List String)
  searchExcludeDomains : Option (List String)
  searchRecencyFilter : Option String
  returnCitations : Option Bool
  returnImages : Option Bool
  returnRelatedQuestions : Option Bool
  maxTokens : Option Rat
  temperature : Option Rat
  topP : Option Rat
  topK : Option Rat
  searchMode : Option String
  citationQuality : Option String
  dateRangeStart : Option String
  dateRangeEnd : Option String
  location : Option String
  searchContextSize : Option Rat
  subjectArea : Option String
  ticker : Option String
  companyName : Option String
  reportType : Option String
  contentType : Option String
  fileType : Option String
  language : Option String
  country : Option String
  customFilters : Option (List (String × String))
deriving Repr

/-- A `MapParams` bag with every key absent. -/
def MapParams.empty : MapParams where
  query := none
  model := none
  searchDomainFilter := none
  searchExcludeDomains := none
  searchRecencyFilter := none
  returnCitations := none
  returnImages := none
  returnRelatedQuestions := none
  maxTokens := none
  temperature := none
  topP := none
  topK := none
  searchMode := none
  citationQuality := none
  dateRangeStart := none
  dateRangeEnd := none
  location := none
  searchContextSize := none
  subjectArea := none
  ticker := none
  companyName := none
  reportType := none
  contentType := none
  fileType := none
  language := none
  country := none
  customFilters := none

/-- Go's `v, ok := m[k].(string); ok && v != ""` read pattern. -/
def presentNonempty (o : Option String) : Option String :=
  match o with
  | some s => if s ≠ "" then some s else none
  | none => none

/-- `buildRequest` (pkg/perplexity/client.go:128-212): construct the wire
request from the query and the dynamic bag.  The Go code builds a literal and
conditionally overrides individual fields; every field is assigned at most
once from the bag, so the overrides are written as each field's final value.
`ReturnCitations` is assigned `true` at construction and assigned `true`
again after the recency override ("Even if user sets it to false, we
override it"); unlike every other flag, no bag entry is consulted for it,
so its final value is the constant `true`. -/
def Client.buildRequest (query : String) (params : MapParams)
    (defaultModel : String) (defaultMaxTokens : Int) (defaultTemperature : Rat) :
    PerplexityRequest where
  model := (presentNonempty params.model).getD defaultModel
  messages := [{ role := "user", content := query }]
  maxTokens := match params.maxTokens with
    | some n => goInt n
    | none => defaultMaxTokens
  temperature := match params.temperature with
    | some t => t
    | none => defaultTemperature
  topP := (params.topP).getD 0
  topK := match params.topK with
    | some t => goInt t
    | none => 0
  stream := false
  searchDomainFilter := (params.searchDomainFilter).getD []
  searchExcludeDomains := (params.searchExcludeDomains).getD []
  returnImages := (params.returnImages).getD false
  returnRelatedQuestions := (params.returnRelatedQuestions).getD false
  searchRecencyFilter := (presentNonempty params.searchRecencyFilter).getD ""
  returnCitations := true
  citationQuality := (presentNonempty params.citationQuality).getD ""
  searchMode := (presentNonempty params.searchMode).getD ""
  dateRangeStart := (presentNonempty params.dateRangeStart).getD ""
  dateRangeEnd := (presentNonempty params.dateRangeEnd).getD ""
  location := (presentNonempty params.location).getD ""
  searchContextSize := match params.searchContextSize with
    | some s => goInt s
    | none => 0

/-- Validation error for a missing / empty / non-string query. -/
def queryRequiredMsg : String := "query parameter is required"

/-- Request-construction portion of `Client.Search` (map path): reject a
missing or empty query before anything else, then build the request and apply
config fallbacks for images / related questions. -/
def Client.searchRequest (params : MapParams) (cfg : Config) :
    Except String PerplexityRequest :=
  match params.query with
  | none => .error queryRequiredMsg
  | some q =>
    if q = "" then .error queryRequiredMsg else
    let req := Client.buildRequest q params cfg.defaultModel cfg.maxTokens cfg.temperature
    .ok { req with
      returnImages := if params.returnImages = none then cfg.returnImages else req.returnImages
      returnRelatedQuestions := if params.returnRelatedQuestions = none then
        cfg.returnRelated else req.returnRelatedQuestions }

/-- Request-construction portion of `Client.AcademicSearch` (map path):
reject a missing or empty query, default the model key to sonar-pro when the
key is absent, force academic mode, default the context size to 10, and
prefix the subject area. -/
def Client.academicSearchRequest (params : MapParams) (cfg : Config) :
    Except String PerplexityRequest :=
  match params.query with
  | none => .error queryRequiredMsg
  | some q =>
    if q = "" then .error queryRequiredMsg else
    let params := if params.model = none then { params with model := some ModelSonarPro } else params
    let params := { params with searchMode := some "academic" }
    let params := if params.searchContextSize = none then
      { params with searchContextSize := some 10 } else params
    let req := Client.buildRequest q params cfg.defaultModel cfg.maxTokens cfg.temperature
    .ok { req with
      messages := match presentNonempty params.subjectArea with
        | some sa => [{ role := "user", content := "[Subject: " ++ sa ++ "] " ++ q }]
        | none => req.messages }

/-- Request-construction portion of `Client.FinancialSearch` (map path). -/
def Client.financialSearchRequest (params : MapParams) (cfg : Config) :
    Except String PerplexityRequest :=
  match params.query with
  | none => .error queryRequiredMsg
  | some q =>
    if q = "" then .error queryRequiredMsg else
    let params := if params.model = none then { params with model := some ModelSonarPro } else params
    let req := Client.buildRequest q params cfg.defaultModel cfg.maxTokens cfg.temperature
    let contextAdditions :=
      (match presentNonempty params.ticker with
        | some t => ["Ticker: " ++ t] | none => []) ++
      (match presentNonempty params.companyName with
        | some c => ["Company: " ++ c] | none => []) ++
      (match presentNonempty params.reportType with
        | some r => ["Report Type: " ++ r] | none => [])
    .ok { req with
      messages := if contextAdditions.length > 0 then
        [{ role := "user", content := "[" ++ joinComma contextAdditions ++ "] " ++ q }]
        else req.messages }

/-- Request-construction portion of `Client.FilteredSearch` (map path). -/
def Client.filteredSearchRequest (params : MapParams) (cfg : Config) :
    Except String PerplexityRequest :=
  match params.query with
  | none => .error queryRequiredMsg
  | some q =>
    if q = "" then .error queryRequiredMsg else
    let params := if params.model = none then { params with model := some ModelSonarPro } else params
    let req := Client.buildRequest q params cfg.defaultModel cfg.maxTokens cfg.temperature
    let filterContext :=
      (match presentNonempty params.contentType with
        | some c => ["Content Type: " ++ c] | none => []) ++
      (match presentNonempty params.fileType with
        | some f => ["File Type: " ++ f] | none => []) ++
      (match presentNonempty params.language with
        | some l => ["Language: " ++ l] | none => []) ++
      (match presentNonempty params.country with
        | some c => ["Country: " ++ c] | none => [])
    let contentAfterFilters := if filterContext.length > 0 then
      "[Filters: " ++ joinComma filterContext ++ "] " ++ q else q
    let finalContent := match params.customFilters with
      | some cf =>
        let customContext := joinComma (cf.map (fun p => p.1 ++ ": " ++ p.2))
        if customContext ≠ "" then
          "[Custom Filters: " ++ customContext ++ "] " ++ contentAfterFilters
        else contentAfterFilters
      | none => contentAfterFilters
    .ok { req with
      location := match presentNonempty params.country with
        | some c => if req.location = "" then c else req.location
        | none => req.location
      messages := [{ role := "user", content := finalContent }] }

/-! ## Tool-call dispatch (pkg/handler) -/

/-- `Handler.extractSearchParams` (pkg/handler): convert the dynamic argument
bag into typed `SearchParams`, rejecting a missing, non-string or empty
query.  No trimming is performed anywhere in this function. -/
def Handler.extractSearchParams (args : MapParams) (searchType : String) :
    Except String SearchParams :=
  match args.query with
  | none => .error queryRequiredMsg
  | some q =>
    if q = "" then .error queryRequiredMsg else
    let params := { SearchParams.empty with query := q, searchType := searchType }
    let params := match presentNonempty args.model with
      | some m => { params with model := m }
      | none => params
    let params := match args.searchDomainFilter with
      | some d => { params with searchDomainFilter := d }
      | none => params
    let params := match args.searchExcludeDomains with
      | some d => { params with searchExcludeDomains := d }
      | none => params
    let params := match presentNonempty args.searchRecencyFilter with
      | some r => { params with searchRecencyFilter := r }
      | none => params
    let params := { params with returnImages := args.returnImages }
    let params := { params with returnRelatedQuestions := args.returnRelatedQuestions }
    let params := match args.maxTokens with
      | some m => { params with maxTokens := some (goInt m) }
      | none => params
    let params := { params with temperature := args.temperature }
    let params := match presentNonempty args.dateRangeStart with
      | some d => { params with dateRangeStart := d }
      | none => params
    let params := match presentNonempty args.dateRangeEnd with
      | some d => { params with dateRangeEnd := d }
      | none => params
    let params := match presentNonempty args.location with
      | some l => { params with location := l }
      | none => params
    .ok params

/-- `handlePerplexitySearch` (pkg/handler), up to the wire request the
dispatched search would send: an extraction error propagates and no request
is ever built. -/
def Handler.searchWireRequest (cfg : Config) (args : MapParams) :
    Except String PerplexityRequest :=
  (Handler.extractSearchParams args "general").map (Searcher.searchRequest cfg)

/-- `handleAcademicSearch` (pkg/handler), up to the wire request: extraction,
then the academic-specific subject-area field, then the searcher. -/
def Handler.academicWireRequest (cfg : Config) (args : MapParams) :
    Except String PerplexityRequest :=
  (Handler.extractSearchParams args "academic").map (fun params =>
    let params := match presentNonempty args.subjectArea with
      | some sa => { params with subjectArea := sa }
      | none => params
    Searcher.academicSearchRequest cfg params)

/-- `handleFinancialSearch` (pkg/handler), up to the wire request. -/
def Handler.financialWireRequest (cfg : Config) (args : MapParams) :
    Except String PerplexityRequest :=
  (Handler.extractSearchParams args "financial").map (fun params =>
    let params := match presentNonempty args.ticker with
      | some t => { params with ticker := t }
      | none => params
    let params := match presentNonempty args.companyName with
      | some c => { params with companyName := c }
      | none => params
    let params := match presentNonempty args.reportType with
      | some r => { params with reportType := r }
      | none => params
    Searcher.financialSearchRequest cfg params)

/-- `handleFilteredSearch` (pkg/handler), up to the wire request. -/
def Handler.filteredWireRequest (cfg : Config) (args : MapParams) :
    Except String PerplexityRequest :=
  (Handler.extractSearchParams args "filtered").map (fun params =>
    let params := match presentNonempty args.contentType with
      | some c => { params with contentType := c }
      | none => params
    let params := match presentNonempty args.fileType with
      | some f => { params with fileType := f }
      | none => params
    let params := match presentNonempty args.language with
      | some l => { params with language := l }
      | none => params
    let params := match presentNonempty args.country with
      | some c => { params with country := c }
      | none => params
    let params := match args.customFilters with
      | some cf => { params with customFilters := some cf }
      | none => params
    Searcher.filteredSearchRequest cfg params)

/-! ## Response formatting (pkg/search/search.go:288-324) -/

/-- The loop `for i, url := range resp.Citations` appending
`fmt.Sprintf("%d. %s\n", i+1, url)`, with `i` threaded explicitly. -/
def citationLines : List String → Nat → String
  | [], _ => ""
  | u :: rest, i => toString (i + 1) ++ ". " ++ u ++ "\n" ++ citationLines rest (i + 1)

/-- The loop over `resp.SearchResults` appending title, URL and optional
snippet lines per entry. -/
def searchResultLines : List SearchResult → Nat → String
  | [], _ => ""
  | r :: rest, i =>
    "\n" ++ toString (i + 1) ++ ". **" ++ r.title ++ "**\n" ++
    "   URL: " ++ r.url ++ "\n" ++
    (if r.snippet ≠ "" then "   Snippet: " ++ r.snippet ++ "\n" else "") ++
    searchResultLines rest (i + 1)

/-- The loop over `resp.RelatedQuestions` appending `- q\n` per question. -/
def relatedQuestionLines : List String → String
  | [] => ""
  | q :: rest => "- " ++ q ++ "\n" ++ relatedQuestionLines rest

/-- `Searcher.formatResponse` (pkg/search/search.go:288-324): answer text,
then the Source URLs / Detailed Sources / Related Questions sections, each
emitted only when its list is non-empty. -/
def Searcher.formatResponse (resp : PerplexityResponse) : String :=
  match resp.choices with
  | [] => "No response from Perplexity API"
  | c :: _ =>
    let content := c.message.content
    let content := if resp.citations.length > 0 then
      content ++ "\n\n## Source URLs\n" ++ citationLines resp.citations 0 else content
    let content := if resp.searchResults.length > 0 then
      content ++ "\n\n## Detailed Sources\n" ++ searchResultLines resp.searchResults 0
      else content
    let content := if resp.relatedQuestions.length > 0 then
      content ++ "\n\n## Related Questions\n" ++ relatedQuestionLines resp.relatedQuestions
      else content
    content

/-! ## Result cache (pkg/cache)

The cache root directory is modelled as `Option (List CacheDirEntry)`:
`none` when the root does not exist on disk, otherwise the list of its
immediate children.  A child's `metadata` is `none` when `metadata.yaml` is
missing or unparseable, and its `result` is `none` when `result.md` is
missing.  The crypto random source is an abstract stream
`rand : Nat → Fin 36` of indices into the charset (`crypto/rand.Int`
guarantees a value below the charset length).  Disk-write outcomes are an
explicit `IOOutcome` oracle so that I/O failures and the partial states they
leave behind stay representable. -/

/-- Metadata sidecar record (pkg/cache `QueryMetadata`); `time.Time` is
modelled as nanoseconds-since-epoch, so `After` is `>` on `Nat`. -/
structure QueryMetadata where
  query : String
  searchType : String
  timestamp : Nat
  model : String
  parameters : List (String × String)
deriving Repr, DecidableEq

/-- Listing projection (pkg/cache `QueryListItem`). -/
structure QueryListItem where
  query : String
  uniqueID : String
  dateTime : Nat
  searchType : String
deriving Repr, DecidableEq

/-- One immediate child of the cache root directory. -/
structure CacheDirEntry where
  name : String
  isDir : Bool
  metadata : Option QueryMetadata
  result : Option String
deriving Repr, DecidableEq

/-- The cache root: `none` when the directory does not exist. -/
def RootState := Option (List CacheDirEntry)

/-- Children of the root, empty when the root does not exist. -/
def RootState.entries (fs : RootState) : List CacheDirEntry :=
  (fs : Option (List CacheDirEntry)).getD []

/-- Success / failure oracle for the three disk mutations `SaveResult`
performs, in program order. -/
structure IOOutcome where
  mkdirOk : Bool
  writeMetadataOk : Bool
  writeResultOk : Bool
deriving Repr, DecidableEq

/-- The all-writes-succeed oracle. -/
def IOOutcome.allOk : IOOutcome := { mkdirOk := true, writeMetadataOk := true, writeResultOk := true }

/-- Constant `idLength = 10` (pkg/cache). -/
def idLength : Nat := 10

/-- Constant `idCharset` (pkg/cache). -/
def idCharset : String := "ABCDEFGHIJKLMNOPQRSTUVWXYZ0123456789"

/-- The charset as a character list. -/
def idCharsetChars : List Char := idCharset.data

theorem idCharsetChars_length : idCharsetChars.length = 36 := rfl

/-- Index into the charset with a value below its length. -/
def charOfFin (k : Fin 36) : Char :=
  idCharsetChars.get (Fin.cast idCharsetChars_length.symm k)

/-- `generateRandomID` (pkg/cache:209-216): ten draws from the charset.  The
stream position of the first draw is `base`. -/
def generateRandomID (rand : Nat → Fin 36) (base : Nat) : String :=
  String.mk ((List.range idLength).map (fun i => charOfFin (rand (base + i))))

/-- `IsCachingEnabled` (pkg/cache:366-368). -/
def IsCachingEnabled (rootFolder : String) : Bool := rootFolder ≠ ""

/-- `idExists` (pkg/cache:219-226): false for an empty root, else whether the
root has a child named `id`. -/
def idExists (rootFolder : String) (fs : RootState) (id : String) : Bool :=
  if rootFolder = "" then false
  else fs.entries.any (fun e => e.name = id)

/-- Error message of `GenerateUniqueID` exhaustion. -/
def idExhaustedMsg : String := "failed to generate unique ID after 100 attempts"

/-- The retry loop of `GenerateUniqueID`: `attempt` is the current attempt
index (each attempt consumes `idLength` stream positions), `fuel` the number
of attempts left. -/
def genAttempts (rand : Nat → Fin 36) (rootFolder : String) (fs : RootState) :
    Nat → Nat → Except String String
  | _, 0 => .error idExhaustedMsg
  | attempt, fuel + 1 =>
    let id := generateRandomID rand (attempt * idLength)
    if idExists rootFolder fs id then genAttempts rand rootFolder fs (attempt + 1) fuel
    else .ok id

/-- `GenerateUniqueID` (pkg/cache:197-206): up to 100 candidate draws. -/
def GenerateUniqueID (rand : Nat → Fin 36) (rootFolder : String) (fs : RootState) :
    Except String String :=
  genAttempts rand rootFolder fs 0 100

/-- `SaveResult` (pkg/cache:229-272).  Returns the `(uniqueID, error)` pair
as an `Except` together with the root state after the call, including the
partial states a failed write leaves behind (dangling directory, metadata
without result). -/
def SaveResult (rootFolder : String) (rand : Nat → Fin 36) (now : Nat)
    (io : IOOutcome) (fs : RootState)
    (query searchType model result : String)
    (parameters : List (String × String)) :
    Except String String × RootState :=
  if rootFolder = "" then (.ok "", fs)
  else
    match GenerateUniqueID rand rootFolder fs with
    | .error e => (.error ("failed to generate unique ID: " ++ e), fs)
    | .ok uniqueID =>
      if ¬io.mkdirOk then (.error "failed to create result folder", fs)
      else
        let metadata : QueryMetadata :=
          { query := query, searchType := searchType, timestamp := now
            model := model, parameters := parameters }
        if ¬io.writeMetadataOk then
          (.error "failed to write metadata file",
            some (fs.entries ++ [{ name := uniqueID, isDir := true, metadata := none, result := none }]))
        else if ¬io.writeResultOk then
          (.error "failed to write result file",
            some (fs.entries ++ [{ name := uniqueID, isDir := true, metadata := some metadata, result := none }]))
        else
          (.ok uniqueID,
            some (fs.entries ++ [{ name := uniqueID, isDir := true, metadata := some metadata, result := some result }]))

/-- Projection of the surviving children for the listing (the body of the
`for _, entry := range entries` loop in `ListPreviousQueries`): non-directory
children and children with missing or unparseable metadata are skipped. -/
def cacheSurvivors (entries : List CacheDirEntry) : List QueryListItem :=
  entries.filterMap (fun e =>
    if e.isDir then
      match e.metadata with
      | some m => some { query := m.query, uniqueID := e.name
                         dateTime := m.timestamp, searchType := m.searchType }
      | none => none
    else none)

/-- Comparison used by the final `sort.Slice`: item `a` may precede `b` when
`b`'s creation time does not exceed `a`'s (most recent first). -/
def recencyGE (a b : QueryListItem) : Prop := b.dateTime ≤ a.dateTime

instance : DecidableRel recencyGE := fun a b => inferInstanceAs (Decidable (b.dateTime ≤ a.dateTime))

instance : IsTotal QueryListItem recencyGE :=
  ⟨fun a b => (Nat.le_total b.dateTime a.dateTime).imp (fun h => h) (fun h => h)⟩

instance : IsTrans QueryListItem recencyGE := ⟨fun _ _ _ h h2 => Nat.le_trans h2 h⟩

/-- `ListPreviousQueries` (pkg/cache:275-326): empty list for an unset or
nonexistent root, otherwise the surviving children sorted most recent first.
Go uses the unstable `sort.Slice`; any sorted permutation is a faithful
model, here an insertion sort. -/
def ListPreviousQueries (rootFolder : String) (fs : RootState) :
    Except String (List QueryListItem) :=
  if rootFolder = "" then .ok []
  else
    match fs with
    | none => .ok []
    | some entries => .ok (List.insertionSort recencyGE (cacheSurvivors entries))

/-- `isValidID` (pkg/cache:356-363): every character is in the charset. -/
def isValidID (id : String) : Bool :=
  id.data.all (fun c => idCharsetChars.contains c)

/-- Error message for a malformed identifier (`GetPreviousResult`). -/
def invalidIdMsg : String := "invalid unique ID format: must be 10 alphanumeric characters"

/-- Error message for a missing result (`GetPreviousResult`). -/
def notFoundMsg (id : String) : String := "result with ID '" ++ id ++ "' not found"

/-- Whether `rootFolder/id/result.md` exists, and its content: there must be
a directory child named `id` whose result file was written. -/
def resultFileContent (fs : RootState) (id : String) : Option String :=
  match fs.entries.find? (fun e => e.name = id) with
  | some e => if e.isDir then e.result else none
  | none => none

/-- `GetPreviousResult` (pkg/cache:329-353): unset root, then identifier
shape (before any storage access), then existence of the result file. -/
def GetPreviousResult (rootFolder : String) (fs : RootState) (uniqueID : String) :
    Except String String :=
  if rootFolder = "" then .error "results root folder not configured"
  else if uniqueID.length ≠ idLength ∨ ¬isValidID uniqueID then .error invalidIdMsg
  else
    match resultFileContent fs uniqueID with
    | none => .error (notFoundMsg uniqueID)
    | some text => .ok text

/-! ## Cache-aware orchestration (pkg/search/search.go:186-348) -/

/-- `Searcher.convertParamsToMap` (pkg/search/search.go:351-421): the
parameter snapshot stored in the metadata sidecar, with `interface{}` values
in their printed form. -/
def Searcher.convertParamsToMap (params : SearchParams) : List (String × String) :=
  [("query", params.query), ("search_type", params.searchType)] ++
  (if params.model ≠ "" then [("model", params.model)] else []) ++
  (if params.searchDomainFilter.length > 0 then
    [("search_domain_filter", toString params.searchDomainFilter)] else []) ++
  (if params.searchExcludeDomains.length > 0 then
    [("search_exclude_domains", toString params.searchExcludeDomains)] else []) ++
  (if params.searchRecencyFilter ≠ "" then
    [("search_recency_filter", params.searchRecencyFilter)] else []) ++
  (match params.returnImages with
    | some b => [("return_images", toString b)] | none => []) ++
  (match params.returnRelatedQuestions with
    | some b => [("return_related_questions", toString b)] | none => []) ++
  (match params.maxTokens with
    | some n => [("max_tokens", toString n)] | none => []) ++
  (match params.temperature with
    | some t => [("temperature", toString t)] | none => []) ++
  (if params.dateRangeStart ≠ "" then [("date_range_start", params.dateRangeStart)] else []) ++
  (if params.dateRangeEnd ≠ "" then [("date_range_end", params.dateRangeEnd)] else []) ++
  (if params.location ≠ "" then [("location", params.location)] else []) ++
  (if params.subjectArea ≠ "" then [("subject_area", params.subjectArea)] else []) ++
  (if params.ticker ≠ "" then [("ticker", params.ticker)] else []) ++
  (if params.companyName ≠ "" then [("company_name", params.companyName)] else []) ++
  (if params.reportType ≠ "" then [("report_type", params.reportType)] else []) ++
  (if params.contentType ≠ "" then [("content_type", params.contentType)] else []) ++
  (if params.fileType ≠ "" then [("file_type", params.fileType)] else []) ++
  (if params.language ≠ "" then [("language", params.language)] else []) ++
  (if params.country ≠ "" then [("country", params.country)] else []) ++
  (match params.customFilters with
    | some cf => [("custom_filters", toString cf)] | none => [])

/-- `Searcher.formatResponseWithCache` (pkg/search/search.go:327-348):
format, then attempt the cache write when caching is enabled; a failed or
empty-ID write leaves the text unchanged, a successful one appends the
trailing Result ID line.  The function is total: no cache outcome can fail
the search.  Returns the text together with the root state after the call. -/
def Searcher.formatResponseWithCache (cfg : Config) (rand : Nat → Fin 36)
    (now : Nat) (io : IOOutcome) (fs : RootState)
    (resp : PerplexityResponse) (params : SearchParams) : String × RootState :=
  let content := Searcher.formatResponse resp
  if IsCachingEnabled cfg.resultsRootFolder then
    let model := if params.model ≠ "" then params.model else cfg.defaultModel
    let paramsMap := Searcher.convertParamsToMap params
    match SaveResult cfg.resultsRootFolder rand now io fs
        params.query params.searchType model content paramsMap with
    | (.ok uniqueID, fs') =>
      if uniqueID ≠ "" then (content ++ "\n\n**Result ID:** " ++ uniqueID, fs')
      else (content, fs')
    | (.error _, fs') => (content, fs')
  else (content, fs)

/-- Error text of the disabled-cache branch of `ListPrevious` and
`GetPreviousResult` (pkg/search/search.go:189,213). -/
def cachingNotEnabledMsg : String :=
  "results caching is not enabled. Set PERPLEXITY_RESULTS_ROOT_FOLDER environment variable to enable caching"

/-- Error text of the empty-list branch of `ListPrevious`
(pkg/search/search.go:198). -/
def noPreviousQueriesMsg : String :=
  "no previous queries found. The results folder may be empty or not configured properly"

/-- `Searcher.ListPrevious` (pkg/search/search.go:187-208), modelling Go's
`(string, error)` pair as `String × Option String`.  The JSON rendering of a
non-empty item list is abstracted by `jsonOf` (`json.MarshalIndent` cannot
fail on these records). -/
def Searcher.ListPrevious (jsonOf : List QueryListItem → String) (cfg : Config)
    (fs : RootState) : String × Option String :=
  if ¬IsCachingEnabled cfg.resultsRootFolder then ("[]", some cachingNotEnabledMsg)
  else
    match ListPreviousQueries cfg.resultsRootFolder fs with
    | .error e => ("", some ("failed to list previous queries: " ++ e))
    | .ok [] => ("[]", some noPreviousQueriesMsg)
    | .ok items => (jsonOf items, none)

/-- `Searcher.GetPreviousResult` (pkg/search/search.go:211-222). -/
def Searcher.getPreviousResult (cfg : Config) (fs : RootState) (uniqueID : String) :
    Except String String :=
  if ¬IsCachingEnabled cfg.resultsRootFolder then .error cachingNotEnabledMsg
  else
    match GetPreviousResult cfg.resultsRootFolder fs uniqueID with
    | .error e => .error ("failed to get previous result: " ++ e)
    | .ok result => .ok result

/-! ## Helper lemmas: field projections of the request builders -/

theorem Searcher.buildRequest_returnCitations (cfg : Config) (params : SearchParams)
    (dm : String) : (Searcher.buildRequest cfg params dm).returnCitations = true := rfl

theorem Client.buildRequest_forces_citations (q : String) (params : MapParams)
    (dm : String) (dmt : Int) (dt : Rat) :
    (Client.buildRequest q params dm dmt dt).returnCitations = true := rfl

theorem Searcher.buildRequest_model (cfg : Config) (params : SearchParams) (dm : String) :
    (Searcher.buildRequest cfg params dm).model =
      if params.model = "" then dm else params.model := by
  by_cases h : params.model = "" <;> simp [Searcher.buildRequest, h]

theorem Searcher.searchRequest_returnCitations (cfg : Config) (params : SearchParams) :
    (Searcher.searchRequest cfg params).returnCitations = true := rfl

theorem Searcher.academicSearchRequest_returnCitations (cfg : Config) (params : SearchParams) :
    (Searcher.academicSearchRequest cfg params).returnCitations = true := rfl

theorem Searcher.financialSearchRequest_returnCitations (cfg : Config) (params : SearchParams) :
    (Searcher.financialSearchRequest cfg params).returnCitations = true := rfl

theorem Searcher.filteredSearchRequest_returnCitations (cfg : Config) (params : SearchParams) :
    (Searcher.filteredSearchRequest cfg params).returnCitations = true := rfl

theorem Client.searchRequest_forces_citations (mp : MapParams) (cfg : Config)
    (req : PerplexityRequest) (h : Client.searchRequest mp cfg = .ok req) :
    req.returnCitations = true := by
  cases hq : mp.query with
  | none => simp [Client.searchRequest, hq] at h
  | some q =>
    by_cases hq0 : q = ""
    · simp [Client.searchRequest, hq, hq0] at h
    · simp only [Client.searchRequest, hq, hq0, if_false, Except.ok.injEq] at h
      subst h
      rfl

theorem Client.academicSearchRequest_forces_citations (mp : MapParams) (cfg : Config)
    (req : PerplexityRequest) (h : Client.academicSearchRequest mp cfg = .ok req) :
    req.returnCitations = true := by
  cases hq : mp.query with
  | none => simp [Client.academicSearchRequest, hq] at h
  | some q =>
    by_cases hq0 : q = ""
    · simp [Client.academicSearchRequest, hq, hq0] at h
    · simp only [Client.academicSearchRequest, hq, hq0, if_false, Except.ok.injEq] at h
      subst h
      rfl

theorem Client.financialSearchRequest_forces_citations (mp : MapParams) (cfg : Config)
    (req : PerplexityRequest) (h : Client.financialSearchRequest mp cfg = .ok req) :
    req.returnCitations = true := by
  cases hq : mp.query with
  | none => simp [Client.financialSearchRequest, hq] at h
  | some q =>
    by_cases hq0 : q = ""
    · simp [Client.financialSearchRequest, hq, hq0] at h
    · simp only [Client.financialSearchRequest, hq, hq0, if_false, Except.ok.injEq] at h
      subst h
      rfl

theorem Client.filteredSearchRequest_forces_citations (mp : MapParams) (cfg : Config)
    (req : PerplexityRequest) (h : Client.filteredSearchRequest mp cfg = .ok req) :
    req.returnCitations = true := by
  cases hq : mp.query with
  | none => simp [Client.filteredSearchRequest, hq] at h
  | some q =>
    by_cases hq0 : q = ""
    · simp [Client.filteredSearchRequest, hq, hq0] at h
    · simp only [Client.filteredSearchRequest, hq, hq0, if_false, Except.ok.injEq] at h
      subst h
      rfl

theorem Handler.extractSearchParams_emptyQuery (args : MapParams) (st : String)
    (h : args.query = none ∨ args.query = some "") :
    Handler.extractSearchParams args st = .error queryRequiredMsg := by
  rcases h with h | h <;> simp [Handler.extractSearchParams, h]

/-! ## Concrete fixtures used by witnesses and counterexamples -/

/-- A concrete configuration (the compiled-in defaults, caching disabled). -/
def cfgTest : Config where
  apiKey := "key"
  defaultModel := "sonar"
  maxTokens := 1024
  temperature := 0
  topP := 0
  topK := 0
  returnCitations := true
  returnImages := false
  returnRelated := false
  resultsRootFolder := ""

/-- A map-based argument bag that explicitly asks for no citations. -/
def mpCitFalse : MapParams := { MapParams.empty with query := some "q", returnCitations := some false }

/-- The wire request the map-based general search sends for `mpCitFalse`. -/
def reqCitFalse : PerplexityRequest :=
  { Client.buildRequest "q" mpCitFalse cfgTest.defaultModel cfgTest.maxTokens cfgTest.temperature with
    returnImages := cfgTest.returnImages, returnRelatedQuestions := cfgTest.returnRelated }

/-- An argument bag whose query is a single space (whitespace-only). -/
def wsArgs : MapParams := { MapParams.empty with query := some " " }

/-! ## Claims -/

/-- C1: for every search operation — the four typed orchestrator operations
(pkg/search) and the four map-based client operations (pkg/perplexity) — and
every input parameter bag, the wire-level request sent to the remote API has
its return-citations flag set to true.  The quantification over `mp` covers a
bag that explicitly supplies return_citations = false: no bag entry for the
flag is ever consulted, so the caller-supplied false is overridden.  (The
typed `SearchParams` cannot even express the flag.) -/
theorem claim1_returnCitations_always_true :
    ∀ (cfg : Config) (params : SearchParams) (mp : MapParams)
      (q dm : String) (dmt : Int) (dt : Rat) (req : PerplexityRequest),
    (Searcher.searchRequest cfg params).returnCitations = true ∧
    (Searcher.academicSearchRequest cfg params).returnCitations = true ∧
    (Searcher.financialSearchRequest cfg params).returnCitations = true ∧
    (Searcher.filteredSearchRequest cfg params).returnCitations = true ∧
    (Client.buildRequest q mp dm dmt dt).returnCitations = true ∧
    (Client.searchRequest mp cfg = .ok req → req.returnCitations = true) ∧
    (Client.academicSearchRequest mp cfg = .ok req → req.returnCitations = true) ∧
    (Client.financialSearchRequest mp cfg = .ok req → req.returnCitations = true) ∧
    (Client.filteredSearchRequest mp cfg = .ok req → req.returnCitations = true) := by
  intro cfg params mp q dm dmt dt req
  exact ⟨Searcher.searchRequest_returnCitations cfg params,
    Searcher.academicSearchRequest_returnCitations cfg params,
    Searcher.financialSearchRequest_returnCitations cfg params,
    Searcher.filteredSearchRequest_returnCitations cfg params,
    Client.buildRequest_forces_citations q mp dm dmt dt,
    Client.searchRequest_forces_citations mp cfg req,
    Client.academicSearchRequest_forces_citations mp cfg req,
    Client.financialSearchRequest_forces_citations mp cfg req,
    Client.filteredSearchRequest_forces_citations mp cfg req⟩

/-- Witness for C1: the map-based general search with an explicit
return_citations = false still sends a request whose flag is true. -/
theorem claim1_returnCitations_always_true_witness :
    Client.searchRequest mpCitFalse cfgTest = .ok reqCitFalse ∧
    reqCitFalse.returnCitations = true :=
  ⟨rfl,
    (claim1_returnCitations_always_true cfgTest SearchParams.empty mpCitFalse
      "q" "sonar" 1024 0 reqCitFalse).2.2.2.2.2.1 rfl⟩

theorem Searcher.searchRequest_model (cfg : Config) (params : SearchParams) :
    (Searcher.searchRequest cfg params).model =
      (Searcher.buildRequest cfg params cfg.defaultModel).model := rfl

theorem Searcher.academicSearchRequest_model_eq (cfg : Config) (params : SearchParams) :
    (Searcher.academicSearchRequest cfg params).model =
      (Searcher.buildRequest cfg
        (if params.model = "" then { params with model := ModelSonarPro } else params)
        cfg.defaultModel).model := rfl

theorem Searcher.academicSearchRequest_model (cfg : Config) (params : SearchParams)
    (h : params.model = "") :
    (Searcher.academicSearchRequest cfg params).model = ModelSonarPro := by
  rw [Searcher.academicSearchRequest_model_eq, Searcher.buildRequest_model, if_pos h]
  simp [ModelSonarPro]

theorem Searcher.financialSearchRequest_model_eq (cfg : Config) (params : SearchParams) :
    (Searcher.financialSearchRequest cfg params).model =
      (Searcher.buildRequest cfg
        (if params.model = "" then { params with model := ModelSonarPro } else params)
        cfg.defaultModel).model := rfl

theorem Searcher.financialSearchRequest_model (cfg : Config) (params : SearchParams)
    (h : params.model = "") :
    (Searcher.financialSearchRequest cfg params).model = ModelSonarPro := by
  rw [Searcher.financialSearchRequest_model_eq, Searcher.buildRequest_model, if_pos h]
  simp [ModelSonarPro]

theorem Searcher.filteredSearchRequest_model_eq (cfg : Config) (params : SearchParams) :
    (Searcher.filteredSearchRequest cfg params).model =
      (Searcher.buildRequest cfg
        (if params.model = "" then { params with model := ModelSonarPro } else params)
        cfg.defaultModel).model := rfl

theorem Searcher.filteredSearchRequest_model (cfg : Config) (params : SearchParams)
    (h : params.model = "") :
    (Searcher.filteredSearchRequest cfg params).model = ModelSonarPro := by
  rw [Searcher.filteredSearchRequest_model_eq, Searcher.buildRequest_model, if_pos h]
  simp [ModelSonarPro]

/-- C9: with no explicit model override, the general search sends the
configured default (cheap) model on the wire, while the academic, financial
and filtered searches each send the richer sonar-pro default, which differs
from the compiled-in plain-search default model. -/
theorem claim9_default_models (cfg : Config) (params : SearchParams)
    (h : params.model = "") :
    (Searcher.searchRequest cfg params).model = cfg.defaultModel ∧
    (Searcher.academicSearchRequest cfg params).model = ModelSonarPro ∧
    (Searcher.financialSearchRequest cfg params).model = ModelSonarPro ∧
    (Searcher.filteredSearchRequest cfg params).model = ModelSonarPro ∧
    ModelSonarPro ≠ DefaultModel := by
  refine ⟨?_, Searcher.academicSearchRequest_model cfg params h,
    Searcher.financialSearchRequest_model cfg params h,
    Searcher.filteredSearchRequest_model cfg params h, by decide⟩
  rw [Searcher.searchRequest_model, Searcher.buildRequest_model, if_pos h]

/-- Witness for C9 at the concrete default configuration and empty
parameter overrides. -/
theorem claim9_default_models_witness :
    (Searcher.searchRequest cfgTest SearchParams.empty).model = cfgTest.defaultModel ∧
    (Searcher.academicSearchRequest cfgTest SearchParams.empty).model = ModelSonarPro ∧
    (Searcher.financialSearchRequest cfgTest SearchParams.empty).model = ModelSonarPro ∧
    (Searcher.filteredSearchRequest cfgTest SearchParams.empty).model = ModelSonarPro ∧
    ModelSonarPro ≠ DefaultModel :=
  claim9_default_models cfgTest SearchParams.empty rfl

/-- C2 counterexample: a whitespace-only query (a single space) is not
rejected by the general-search handler; parameter extraction succeeds and a
wire request is produced, so a network call is made. -/
theorem claim2_counterexample_whitespace_query :
    Handler.searchWireRequest cfgTest wsArgs =
      .ok (Searcher.searchRequest cfgTest
        { SearchParams.empty with query := " ", searchType := "general" }) := rfl

/-- C2 (amended): for all four handler operations and all four map-based
client operations, an input whose query is absent (or not a string) or equal
to the empty string yields the validation error before any wire request is
built; whitespace-only queries are not rejected (no trimming is performed). -/
theorem claim2_empty_query_rejected (cfg : Config) (args mp : MapParams)
    (h1 : args.query = none ∨ args.query = some "")
    (h2 : mp.query = none ∨ mp.query = some "") :
    Handler.searchWireRequest cfg args = .error queryRequiredMsg ∧
    Handler.academicWireRequest cfg args = .error queryRequiredMsg ∧
    Handler.financialWireRequest cfg args = .error queryRequiredMsg ∧
    Handler.filteredWireRequest cfg args = .error queryRequiredMsg ∧
    Client.searchRequest mp cfg = .error queryRequiredMsg ∧
    Client.academicSearchRequest mp cfg = .error queryRequiredMsg ∧
    Client.financialSearchRequest mp cfg = .error queryRequiredMsg ∧
    Client.filteredSearchRequest mp cfg = .error queryRequiredMsg := by
  have he := Handler.extractSearchParams_emptyQuery args
  refine ⟨?_, ?_, ?_, ?_, ?_, ?_, ?_, ?_⟩
  · simp [Handler.searchWireRequest, he _ h1, Except.map]
  · simp [Handler.academicWireRequest, he _ h1, Except.map]
  · simp [Handler.financialWireRequest, he _ h1, Except.map]
  · simp [Handler.filteredWireRequest, he _ h1, Except.map]
  · rcases h2 with h | h <;> simp [Client.searchRequest, h]
  · rcases h2 with h | h <;> simp [Client.academicSearchRequest, h]
  · rcases h2 with h | h <;> simp [Client.financialSearchRequest, h]
  · rcases h2 with h | h <;> simp [Client.filteredSearchRequest, h]

/-- Witness for the amended C2 at a bag with the query key absent. -/
theorem claim2_empty_query_rejected_witness :
    Handler.searchWireRequest cfgTest MapParams.empty = .error queryRequiredMsg ∧
    Handler.academicWireRequest cfgTest MapParams.empty = .error queryRequiredMsg ∧
    Handler.financialWireRequest cfgTest MapParams.empty = .error queryRequiredMsg ∧
    Handler.filteredWireRequest cfgTest MapParams.empty = .error queryRequiredMsg ∧
    Client.searchRequest MapParams.empty cfgTest = .error queryRequiredMsg ∧
    Client.academicSearchRequest MapParams.empty cfgTest = .error queryRequiredMsg ∧
    Client.financialSearchRequest MapParams.empty cfgTest = .error queryRequiredMsg ∧
    Client.filteredSearchRequest MapParams.empty cfgTest = .error queryRequiredMsg :=
  claim2_empty_query_rejected cfgTest MapParams.empty MapParams.empty
    (Or.inl rfl) (Or.inl rfl)

/-! ## Claim C4: formatter section structure -/

/-- Concatenation of a list of already-terminated lines. -/
def concatLines : List String → String
  | [] => ""
  | l :: rest => l ++ concatLines rest

/-- Specification-side description of the Source URLs body: one numbered
line per citation, numbered from 1, in the citations' original order. -/
def citationLineList (urls : List String) : List String :=
  urls.enum.map (fun p => toString (p.1 + 1) ++ ". " ++ p.2 ++ "\n")

theorem citationLines_eq_enumFrom (urls : List String) (i : Nat) :
    citationLines urls i =
      concatLines ((urls.enumFrom i).map (fun p => toString (p.1 + 1) ++ ". " ++ p.2 ++ "\n")) := by
  induction urls generalizing i with
  | nil => rfl
  | cons u rest ih => simp [citationLines, List.enumFrom, concatLines, ih]

theorem citationLines_eq (urls : List String) :
    citationLines urls 0 = concatLines (citationLineList urls) :=
  citationLines_eq_enumFrom urls 0

theorem citationLineList_length (urls : List String) :
    (citationLineList urls).length = urls.length := by
  simp [citationLineList]

theorem enumFrom_lineList_getD (urls : List String) (i k : Nat) (hk : k < urls.length) :
    ((urls.enumFrom i).map (fun p => toString (p.1 + 1) ++ ". " ++ p.2 ++ "\n")).getD k "" =
      toString (i + k + 1) ++ ". " ++ urls.getD k "" ++ "\n" := by
  induction urls generalizing i k with
  | nil => simp at hk
  | cons u rest ih =>
    cases k with
    | zero => simp [List.enumFrom]
    | succ k =>
      have hk' : k < rest.length := Nat.lt_of_succ_lt_succ hk
      have hrec := ih (i + 1) k hk'
      have hidx : i + 1 + k + 1 = i + (k + 1) + 1 := by omega
      rw [hidx] at hrec
      simpa [List.enumFrom] using hrec

theorem citationLineList_getD (urls : List String) (k : Nat) (hk : k < urls.length) :
    (citationLineList urls).getD k "" =
      toString (k + 1) ++ ". " ++ urls.getD k "" ++ "\n" := by
  have := enumFrom_lineList_getD urls 0 k hk
  rw [Nat.zero_add] at this
  exact this

/-- C4: for a reply with a first choice and N citations, M detailed source
records and K related questions, the formatted text is exactly the answer
text followed by a "Source URLs" section present iff N > 0, then a "Detailed
Sources" section present iff M > 0, then a "Related Questions" section
present iff K > 0, in that fixed order, each omitted (empty string, no
header) when its list is empty; and the Source URLs body consists of exactly
N numbered lines, line k carrying number k+1 and the k-th citation in
original order. -/
theorem claim4_formatResponse_sections (resp : PerplexityResponse) (c : Choice)
    (rest : List Choice) (h : resp.choices = c :: rest) :
    Searcher.formatResponse resp =
      c.message.content ++
      (if resp.citations.length > 0 then
        "\n\n## Source URLs\n" ++ concatLines (citationLineList resp.citations) else "") ++
      (if resp.searchResults.length > 0 then
        "\n\n## Detailed Sources\n" ++ searchResultLines resp.searchResults 0 else "") ++
      (if resp.relatedQuestions.length > 0 then
        "\n\n## Related Questions\n" ++ relatedQuestionLines resp.relatedQuestions else "") ∧
    (citationLineList resp.citations).length = resp.citations.length ∧
    (∀ k, k < resp.citations.length →
      (citationLineList resp.citations).getD k "" =
        toString (k + 1) ++ ". " ++ resp.citations.getD k "" ++ "\n") := by
  refine ⟨?_, citationLineList_length resp.citations,
    fun k hk => citationLineList_getD resp.citations k hk⟩
  unfold Searcher.formatResponse
  rw [h]
  dsimp only
  rw [← citationLines_eq]
  by_cases h1 : resp.citations.length > 0 <;>
    by_cases h2 : resp.searchResults.length > 0 <;>
      by_cases h3 : resp.relatedQuestions.length > 0 <;>
        simp [h1, h2, h3, String.append_assoc]

/-- A concrete reply with one answer, two citations, one detailed source and
one related question. -/
def respTest : PerplexityResponse where
  choices := [{ index := 0, finishReason := "stop"
                message := { role := "assistant", content := "Answer" } }]
  citations := ["https://a.example", "https://b.example"]
  searchResults := [{ url := "https://a.example", title := "A", snippet := "s" }]
  relatedQuestions := ["Q1?"]

/-- Witness for C4 at the concrete reply `respTest`. -/
theorem claim4_formatResponse_sections_witness :
    Searcher.formatResponse respTest =
      ({ role := "assistant", content := "Answer" } : Message).content ++
      (if respTest.citations.length > 0 then
        "\n\n## Source URLs\n" ++ concatLines (citationLineList respTest.citations) else "") ++
      (if respTest.searchResults.length > 0 then
        "\n\n## Detailed Sources\n" ++ searchResultLines respTest.searchResults 0 else "") ++
      (if respTest.relatedQuestions.length > 0 then
        "\n\n## Related Questions\n" ++ relatedQuestionLines respTest.relatedQuestions else "") ∧
    (citationLineList respTest.citations).length = respTest.citations.length ∧
    (∀ k, k < respTest.citations.length →
      (citationLineList respTest.citations).getD k "" =
        toString (k + 1) ++ ". " ++ respTest.citations.getD k "" ++ "\n") :=
  claim4_formatResponse_sections respTest
    { index := 0, finishReason := "stop"
      message := { role := "assistant", content := "Answer" } } [] rfl

/-! ## Claim C7: identifier generation -/

theorem generateRandomID_length (rand : Nat → Fin 36) (base : Nat) :
    (generateRandomID rand base).length = idLength := by
  simp [generateRandomID, String.length, idLength]

theorem generateRandomID_valid (rand : Nat → Fin 36) (base : Nat) :
    isValidID (generateRandomID rand base) = true := by
  simp only [isValidID, generateRandomID, List.all_eq_true]
  intro c hc
  obtain ⟨i, _, hi⟩ := List.mem_map.mp hc
  exact List.elem_eq_true_of_mem (hi ▸ List.get_mem _ _ _)

theorem genAttempts_ok_spec (rand : Nat → Fin 36) (root : String) (fs : RootState)
    (attempt fuel : Nat) (id : String)
    (h : genAttempts rand root fs attempt fuel = .ok id) :
    id.length = idLength ∧ isValidID id = true ∧ idExists root fs id = false := by
  induction fuel generalizing attempt with
  | zero => simp [genAttempts] at h
  | succ fuel ih =>
    rw [genAttempts] at h
    by_cases hex : idExists root fs (generateRandomID rand (attempt * idLength)) = true
    · rw [if_pos hex] at h
      exact ih (attempt + 1) h
    · rw [if_neg hex] at h
      cases h
      exact ⟨generateRandomID_length rand _, generateRandomID_valid rand _,
        Bool.not_eq_true _ ▸ hex⟩

theorem genAttempts_error_spec (rand : Nat → Fin 36) (root : String) (fs : RootState)
    (attempt fuel : Nat)
    (h : ∀ j, j < fuel → idExists root fs (generateRandomID rand ((attempt + j) * idLength)) = true) :
    genAttempts rand root fs attempt fuel = .error idExhaustedMsg := by
  induction fuel generalizing attempt with
  | zero => rfl
  | succ fuel ih =>
    rw [genAttempts]
    have h0 := h 0 (Nat.succ_pos fuel)
    rw [Nat.add_zero] at h0
    rw [if_pos h0]
    refine ih (attempt + 1) (fun j hj => ?_)
    have hja := h (j + 1) (Nat.succ_lt_succ hj)
    have heq : attempt + 1 + j = attempt + (j + 1) := by omega
    rw [heq]
    exact hja

/-- C7: the identifier generator either returns a 10-character string drawn
entirely from the uppercase-alphanumeric charset that does not name an
existing storage unit under the root, or fails; it makes at most 100
candidate attempts, and when all 100 candidates collide with existing
storage units it fails with the exhaustion error. -/
theorem claim7_generateUniqueID (rand : Nat → Fin 36) (root : String) (fs : RootState) :
    (∀ id, GenerateUniqueID rand root fs = .ok id →
      id.length = idLength ∧ isValidID id = true ∧ idExists root fs id = false) ∧
    ((∀ a, a < 100 → idExists root fs (generateRandomID rand (a * idLength)) = true) →
      GenerateUniqueID rand root fs = .error idExhaustedMsg) := by
  constructor
  · intro id h
    exact genAttempts_ok_spec rand root fs 0 100 id h
  · intro h
    exact genAttempts_error_spec rand root fs 0 100 (fun j hj => by
      have := h j hj
      rwa [Nat.zero_add])

/-- The all-zero random stream, a concrete random source for witnesses. -/
def randZero : Nat → Fin 36 := fun _ => ⟨0, by decide⟩

/-- Witness for C7: on an empty cache the first candidate (all first charset
characters) is returned, is well-formed and collides with nothing. -/
theorem claim7_generateUniqueID_witness :
    ("AAAAAAAAAA" : String).length = idLength ∧
    isValidID "AAAAAAAAAA" = true ∧
    idExists "cache" (some []) "AAAAAAAAAA" = false :=
  (claim7_generateUniqueID randZero "cache" (some [])).1 "AAAAAAAAAA" rfl

/-! ## Claim C3: cache round-trip -/

theorem find?_append_of_any_eq_false {α : Type} (l1 l2 : List α) (p : α → Bool)
    (h : l1.any p = false) : (l1 ++ l2).find? p = l2.find? p := by
  induction l1 with
  | nil => rfl
  | cons a l ih =>
    rw [List.any_cons, Bool.or_eq_false_iff] at h
    rw [List.cons_append, List.find?_cons, h.1]
    exact ih h.2

/-- C3: with caching enabled, retrieving the identifier returned by a
successful save yields exactly the saved result text. -/
theorem claim3_cache_roundtrip (root : String) (rand : Nat → Fin 36) (now : Nat)
    (io : IOOutcome) (fs : RootState)
    (query searchType model text : String) (parameters : List (String × String))
    (id : String) (fs' : RootState)
    (hroot : root ≠ "") (htext : text ≠ "")
    (hsave : SaveResult root rand now io fs query searchType model text parameters
      = (.ok id, fs')) :
    GetPreviousResult root fs' id = .ok text := by
  rw [SaveResult, if_neg hroot] at hsave
  cases hgen : GenerateUniqueID rand root fs with
  | error e => simp [hgen] at hsave
  | ok uid =>
    simp only [hgen] at hsave
    obtain ⟨hlen, hvalid, hexists⟩ := genAttempts_ok_spec rand root fs 0 100 uid hgen
    by_cases hm : io.mkdirOk = true
    case neg => simp [hm] at hsave
    by_cases hw1 : io.writeMetadataOk = true
    case neg => simp [hm, hw1] at hsave
    by_cases hw2 : io.writeResultOk = true
    case neg => simp [hm, hw1, hw2] at hsave
    rw [if_neg (by simp [hm]), if_neg (by simp [hw1]), if_neg (by simp [hw2]),
      Prod.mk.injEq] at hsave
    obtain ⟨hid, hfs⟩ := hsave
    injection hid with hid
    subst hid
    subst hfs
    have hany : fs.entries.any (fun e => e.name = uid) = false := by
      have h2 : idExists root fs uid = false := hexists
      rwa [idExists, if_neg hroot] at h2
    have hrfc : resultFileContent
        (some (fs.entries ++
          [{ name := uid, isDir := true
             metadata := some { query := query, searchType := searchType, timestamp := now
                                model := model, parameters := parameters }
             result := some text }])) uid = some text := by
      rw [resultFileContent]
      rw [show (RootState.entries (some (fs.entries ++
        [{ name := uid, isDir := true
           metadata := some { query := query, searchType := searchType, timestamp := now
                              model := model, parameters := parameters }
           result := some text }]))) = fs.entries ++
        [{ name := uid, isDir := true
           metadata := some { query := query, searchType := searchType, timestamp := now
                              model := model, parameters := parameters }
           result := some text }] from rfl]
      rw [find?_append_of_any_eq_false _ _ _ hany]
      simp [List.find?]
    rw [GetPreviousResult, if_neg hroot, if_neg (by simp [hlen, hvalid]), hrfc]

/-- The root state after one concrete save into an initially missing root. -/
def fsAfterSave : RootState :=
  (SaveResult "cache" randZero 0 IOOutcome.allOk none "q" "general" "sonar" "hello" []).2

/-- Witness for C3: one concrete save into an empty cache, then a get. -/
theorem claim3_cache_roundtrip_witness :
    GetPreviousResult "cache" fsAfterSave "AAAAAAAAAA" = .ok "hello" :=
  claim3_cache_roundtrip "cache" randZero 0 IOOutcome.allOk none
    "q" "general" "sonar" "hello" [] "AAAAAAAAAA" fsAfterSave
    (by decide) (by decide) rfl

/-! ## Claim C5: get-side identifier validation -/

theorem invalidIdMsg_ne_notFoundMsg (id : String) : invalidIdMsg ≠ notFoundMsg id := by
  obtain ⟨d⟩ := id
  intro h
  have hd : invalidIdMsg.data = (notFoundMsg ⟨d⟩).data := congrArg String.data h
  rw [show (notFoundMsg ⟨d⟩).data =
    ("result with ID '".data ++ d) ++ "' not found".data from rfl] at hd
  rw [show invalidIdMsg.data =
    'i' :: "nvalid unique ID format: must be 10 alphanumeric characters".data from rfl] at hd
  rw [show "result with ID '".data = 'r' :: "esult with ID '".data from rfl] at hd
  rw [List.cons_append, List.cons_append] at hd
  injection hd with h1 _
  exact absurd h1 (by decide)

/-- C5: with caching enabled, `get` validates the identifier's shape (exact
10-character length and charset membership) independently of the storage
state, rejecting a malformed identifier with the invalid-format error; a
well-formed identifier with no stored result file yields the not-found
error; and the two errors are distinct. -/
theorem claim5_get_validation (root : String) (fs : RootState) (id : String)
    (hroot : root ≠ "") :
    ((id.length ≠ idLength ∨ isValidID id = false) →
      GetPreviousResult root fs id = .error invalidIdMsg) ∧
    (id.length = idLength → isValidID id = true → resultFileContent fs id = none →
      GetPreviousResult root fs id = .error (notFoundMsg id)) ∧
    invalidIdMsg ≠ notFoundMsg id := by
  refine ⟨?_, ?_, invalidIdMsg_ne_notFoundMsg id⟩
  · intro h
    rw [GetPreviousResult, if_neg hroot, if_pos ?_]
    rcases h with h | h
    · exact Or.inl h
    · exact Or.inr (by simp [h])
  · intro hlen hvalid hnone
    rw [GetPreviousResult, if_neg hroot, if_neg (by simp [hlen, hvalid]), hnone]

/-- Witness for C5: a malformed identifier is rejected with the
invalid-format error for any state, and a well-formed unknown identifier
gets the not-found error on an empty root. -/
theorem claim5_get_validation_witness :
    GetPreviousResult "cache" (some []) "abc" = .error invalidIdMsg ∧
    GetPreviousResult "cache" (some []) "ZZZZZZZZZZ" = .error (notFoundMsg "ZZZZZZZZZZ") :=
  ⟨(claim5_get_validation "cache" (some []) "abc" (by decide)).1 (Or.inl (by decide)),
   (claim5_get_validation "cache" (some []) "ZZZZZZZZZZ" (by decide)).2.1 rfl (by decide) rfl⟩

/-! ## Claim C6: listing -/

/-- C6: the listing returns an empty list (not an error) for an unset root
folder or a nonexistent root directory; otherwise it returns, without
failing, exactly the surviving children — directories with readable,
parseable metadata; files and broken children are skipped — as a permutation
sorted by creation timestamp descending (most recent first). -/
theorem claim6_list_previous_queries (root : String) (fs : RootState) :
    (root = "" → ListPreviousQueries root fs = .ok []) ∧
    (fs = none → ListPreviousQueries root fs = .ok []) ∧
    (∀ entries, root ≠ "" → fs = some entries →
      ∃ items, ListPreviousQueries root fs = .ok items ∧
        items.Perm (cacheSurvivors entries) ∧
        List.Sorted recencyGE items) := by
  refine ⟨?_, ?_, ?_⟩
  · intro h
    rw [ListPreviousQueries.eq_def, if_pos h]
  · intro h
    subst h
    by_cases hroot : root = ""
    · rw [ListPreviousQueries.eq_def, if_pos hroot]
    · rw [ListPreviousQueries.eq_def, if_neg hroot]
  · intro entries hroot h
    subst h
    rw [ListPreviousQueries.eq_def, if_neg hroot]
    exact ⟨_, rfl, List.perm_insertionSort recencyGE _,
      List.sorted_insertionSort recencyGE _⟩

/-- A concrete root listing: a stale file, a directory with unparseable
metadata, and two well-formed entries saved at times 1 and 5. -/
def entriesTest : List CacheDirEntry :=
  [{ name := "junk.txt", isDir := false, metadata := none, result := none },
   { name := "BROKEN0000", isDir := true, metadata := none, result := some "x" },
   { name := "AAAAAAAAAA", isDir := true
     metadata := some { query := "q1", searchType := "general", timestamp := 1
                        model := "sonar", parameters := [] }
     result := some "r1" },
   { name := "BBBBBBBBBB", isDir := true
     metadata := some { query := "q2", searchType := "academic", timestamp := 5
                        model := "sonar-pro", parameters := [] }
     result := some "r2" }]

/-- Witness for C6 at the concrete listing `entriesTest`. -/
theorem claim6_list_previous_queries_witness :
    ∃ items, ListPreviousQueries "cache" (some entriesTest) = .ok items ∧
      items.Perm (cacheSurvivors entriesTest) ∧
      List.Sorted recencyGE items :=
  (claim6_list_previous_queries "cache" (some entriesTest)).2.2 entriesTest
    (by decide) rfl

/-! ## Claim C10: empty-but-enabled cache surfaces as an error -/

/-- C10: when caching is enabled and the root exists but holds no child with
readable metadata, the searcher-level listing returns the "no previous
queries found" error (alongside the "[]" string), not a plain empty JSON
array, for every JSON renderer. -/
theorem claim10_empty_list_is_error (jsonOf : List QueryListItem → String)
    (cfg : Config) (fs : RootState) (entries : List CacheDirEntry)
    (hroot : cfg.resultsRootFolder ≠ "") (hfs : fs = some entries)
    (hempty : cacheSurvivors entries = []) :
    Searcher.ListPrevious jsonOf cfg fs = ("[]", some noPreviousQueriesMsg) := by
  subst hfs
  rw [Searcher.ListPrevious, if_neg (by simp [IsCachingEnabled, hroot])]
  rw [show ListPreviousQueries cfg.resultsRootFolder (some entries) =
    .ok (List.insertionSort recencyGE (cacheSurvivors entries)) from by
      rw [ListPreviousQueries.eq_def, if_neg hroot]]
  rw [hempty]
  rfl

/-- A configuration with caching enabled at root "cache". -/
def cfgCache : Config := { cfgTest with resultsRootFolder := "cache" }

/-- Witness for C10: an enabled cache whose root holds only a broken entry
yields the error pair. -/
theorem claim10_empty_list_is_error_witness :
    Searcher.ListPrevious (fun _ => "") cfgCache
      (some [{ name := "BROKEN0000", isDir := true, metadata := none, result := some "x" }]) =
      ("[]", some noPreviousQueriesMsg) :=
  claim10_empty_list_is_error (fun _ => "") cfgCache
    (some [{ name := "BROKEN0000", isDir := true, metadata := none, result := some "x" }])
    [{ name := "BROKEN0000", isDir := true, metadata := none, result := some "x" }]
    (by decide) rfl rfl

/-! ## Claim C8: cache write failures never fail the search -/

/-- C8: formatting with cache is total — it always returns the formatted
text.  When caching is disabled or the cache write fails (identifier
exhaustion or any I/O failure), the result is exactly the formatted text
with no Result ID line; the trailing Result ID line is appended exactly when
the write succeeds with a non-empty identifier. -/
theorem claim8_cache_write_failure_swallowed (cfg : Config) (rand : Nat → Fin 36)
    (now : Nat) (io : IOOutcome) (fs : RootState) (resp : PerplexityResponse)
    (params : SearchParams) :
    (IsCachingEnabled cfg.resultsRootFolder = false →
      Searcher.formatResponseWithCache cfg rand now io fs resp params =
        (Searcher.formatResponse resp, fs)) ∧
    (∀ e fs', IsCachingEnabled cfg.resultsRootFolder = true →
      SaveResult cfg.resultsRootFolder rand now io fs params.query params.searchType
        (if params.model ≠ "" then params.model else cfg.defaultModel)
        (Searcher.formatResponse resp) (Searcher.convertParamsToMap params) =
        (.error e, fs') →
      Searcher.formatResponseWithCache cfg rand now io fs resp params =
        (Searcher.formatResponse resp, fs')) ∧
    (∀ id fs', IsCachingEnabled cfg.resultsRootFolder = true →
      SaveResult cfg.resultsRootFolder rand now io fs params.query params.searchType
        (if params.model ≠ "" then params.model else cfg.defaultModel)
        (Searcher.formatResponse resp) (Searcher.convertParamsToMap params) =
        (.ok id, fs') → id ≠ "" →
      Searcher.formatResponseWithCache cfg rand now io fs resp params =
        (Searcher.formatResponse resp ++ "\n\n**Result ID:** " ++ id, fs')) ∧
    (∀ fs', IsCachingEnabled cfg.resultsRootFolder = true →
      SaveResult cfg.resultsRootFolder rand now io fs params.query params.searchType
        (if params.model ≠ "" then params.model else cfg.defaultModel)
        (Searcher.formatResponse resp) (Searcher.convertParamsToMap params) =
        (.ok "", fs') →
      Searcher.formatResponseWithCache cfg rand now io fs resp params =
        (Searcher.formatResponse resp, fs')) := by
  refine ⟨?_, ?_, ?_, ?_⟩
  · intro h
    rw [Searcher.formatResponseWithCache.eq_def]
    simp only [h, Bool.false_eq_true, if_false]
  · intro e fs' h hsave
    rw [Searcher.formatResponseWithCache.eq_def]
    simp only [h, if_true, hsave]
  · intro id fs' h hsave hid
    rw [Searcher.formatResponseWithCache.eq_def]
    simp only [h, if_true, hsave]
    rw [if_pos hid]
  · intro fs' h hsave
    rw [Searcher.formatResponseWithCache.eq_def]
    simp only [h, if_true, hsave]
    rw [if_neg (by simp)]

/-- Witness for C8: with caching enabled and a failing directory creation,
the concrete search result text is returned unchanged. -/
theorem claim8_cache_write_failure_swallowed_witness :
    Searcher.formatResponseWithCache cfgCache randZero 0
      { mkdirOk := false, writeMetadataOk := true, writeResultOk := true }
      (some []) respTest SearchParams.empty =
      (Searcher.formatResponse respTest, some []) :=
  (claim8_cache_write_failure_swallowed cfgCache randZero 0
      { mkdirOk := false, writeMetadataOk := true, writeResultOk := true }
      (some []) respTest SearchParams.empty).2.1
    "failed to create result folder" (some []) rfl rfl

end Perplexity
